import Mathlib

/-!
Shallow embedding of `src/ESP32_Exoskeleton_Controller/ESP32_Exoskeleton_Controller.ino`
(bilateral ESP32 exoskeleton gait controller).

Floating-point values (`float` in the source) are modelled as rationals `ℚ`;
C `int` is modelled as `Int`.  Timestamps and the wall-clock interval checks
are abstracted: a "tick" of `updateGaitSimulation` / `updateServos` is the body
of the function that runs when its interval has elapsed.  Hardware side
effects (`servo.write`, `tone`, `digitalWrite`, `Serial`) are outside the
state; everything the claims mention is modelled.
-/

namespace Exo

/-- Arduino's `constrain(amt, low, high)` macro:
`((amt)<(low)?(low):((amt)>(high)?(high):(amt)))`, over rationals. -/
def constrain (amt low high : ℚ) : ℚ :=
  if amt < low then low else if amt > high then high else amt

/-- Arduino's `constrain` macro instantiated at `int`. -/
def constrainInt (amt low high : Int) : Int :=
  if amt < low then low else if amt > high then high else amt

/-- `#define SERVO_MIN_ANGLE 0` -/
def SERVO_MIN_ANGLE : ℚ := 0

/-- `#define SERVO_MAX_ANGLE 180` -/
def SERVO_MAX_ANGLE : ℚ := 180

/-- `#define SERVO_HOME_POS 90` -/
def SERVO_HOME_POS : ℚ := 90

/-- `const int GAIT_SAMPLES = 100;` -/
def GAIT_SAMPLES : Int := 100

/-- `enum SystemState { STOPPED, RUNNING, PAUSED, ERROR_STATE };` -/
inductive SystemState where
  | STOPPED
  | RUNNING
  | PAUSED
  | ERROR_STATE
deriving DecidableEq, Repr

open SystemState

/-- The raw C enumerator value of a `SystemState` (STOPPED = 0, …). -/
def SystemState.enumValue : SystemState → Int
  | STOPPED => 0
  | RUNNING => 1
  | PAUSED => 2
  | ERROR_STATE => 3

/-- `struct ServoData { float currentAngle; float targetAngle; unsigned long lastUpdate; }`
(the `lastUpdate` timestamp is not modelled: no claim mentions it and the
source never reads it). -/
structure ServoData where
  currentAngle : ℚ
  targetAngle : ℚ
deriving DecidableEq, Repr

/-- `struct SystemData` (the `timestamp` field is not modelled, as for
`ServoData.lastUpdate`). -/
structure SystemData where
  leftHip : ServoData
  leftKnee : ServoData
  rightHip : ServoData
  rightKnee : ServoData
  gaitPhase : Int
  gaitProgress : Int
  gaitSpeed : ℚ
  systemLoad : ℚ
  errorCode : Int
  errorMessage : String
deriving DecidableEq, Repr

/-- The whole shared mutable state of the sketch: the globals
`currentState`, `lastErrorMessage`, `currentData`, `gaitCycleIndex`,
`gaitSpeed`, `completedCycles`, `lastProgress` (timestamp globals such as
`lastGaitUpdate` and `lastServoUpdate` are abstracted away with the clock). -/
structure ExoState where
  currentState : SystemState
  lastErrorMessage : String
  currentData : SystemData
  gaitCycleIndex : Int
  gaitSpeed : ℚ
  completedCycles : Int
  lastProgress : Int
deriving DecidableEq, Repr

/-- `float hipLeft[GAIT_SAMPLES]` from the source (100 samples). -/
def hipLeft : List ℚ := [
  78.76, 77.71, 76.72, 75.79, 74.93, 74.15, 73.43, 72.79, 72.24, 71.77,
  71.38, 71.08, 70.87, 70.75, 70.72, 70.78, 70.94, 71.18, 71.51, 71.92,
  72.43, 73.01, 73.67, 74.42, 75.23, 76.11, 77.06, 78.07, 79.14, 80.25,
  81.42, 82.62, 83.86, 85.13, 86.41, 87.72, 89.04, 90.36, 91.68, 92.99,
  94.29, 95.57, 96.82, 98.04, 99.22, 100.36, 101.45, 102.49, 103.46, 104.38,
  105.22, 106.00, 106.70, 107.32, 107.86, 108.31, 108.68, 108.96, 109.16, 109.26,
  109.27, 109.19, 109.02, 108.77, 108.42, 107.99, 107.47, 106.87, 106.19, 105.43,
  104.61, 103.71, 102.75, 101.73, 100.65, 99.53, 98.36, 97.15, 95.90, 94.63,
  93.34, 92.03, 90.71, 89.39, 88.07, 86.76, 85.46, 84.19, 82.94, 81.73,
  80.56, 79.43, 78.35, 77.32, 76.36, 75.46, 74.62, 73.86, 73.18, 72.57]

/-- `float kneeLeft[GAIT_SAMPLES]` from the source (100 samples). -/
def kneeLeft : List ℚ := [
  104.26, 103.53, 102.73, 101.86, 100.94, 99.95, 98.92, 97.84, 96.72, 95.57,
  94.39, 93.19, 91.97, 90.74, 89.50, 88.27, 87.05, 85.84, 84.66, 83.50,
  82.37, 81.29, 80.25, 79.25, 78.31, 77.43, 76.62, 75.87, 75.20, 74.60,
  74.08, 73.64, 73.28, 73.01, 72.82, 72.72, 72.71, 72.79, 72.95, 73.20,
  73.54, 73.96, 74.46, 75.04, 75.70, 76.43, 77.22, 78.09, 79.01, 79.99,
  81.02, 82.10, 83.21, 84.37, 85.54, 86.75, 87.97, 89.19, 90.43, 91.66,
  92.88, 94.09, 95.28, 96.44, 97.56, 98.65, 99.70, 100.69, 101.64, 102.52,
  103.34, 104.09, 104.77, 105.37, 105.90, 106.34, 106.70, 106.98, 107.17, 107.28,
  107.29, 107.22, 107.06, 106.82, 106.48, 106.07, 105.57, 104.99, 104.34, 103.62,
  102.82, 101.96, 101.04, 100.07, 99.04, 97.96, 96.85, 95.70, 94.52, 93.32]

/-- `float hipRight[GAIT_SAMPLES]` from the source (100 samples). -/
def hipRight : List ℚ := [
  105.22, 106.00, 106.70, 107.32, 107.86, 108.31, 108.68, 108.96, 109.16, 109.26,
  109.27, 109.19, 109.02, 108.77, 108.42, 107.99, 107.47, 106.87, 106.19, 105.43,
  104.61, 103.71, 102.75, 101.73, 100.65, 99.53, 98.36, 97.15, 95.90, 94.63,
  93.34, 92.03, 90.71, 89.39, 88.07, 86.76, 85.46, 84.19, 82.94, 81.73,
  80.56, 79.43, 78.35, 77.32, 76.36, 75.46, 74.62, 73.86, 73.18, 72.57,
  78.76, 77.71, 76.72, 75.79, 74.93, 74.15, 73.43, 72.79, 72.24, 71.77,
  71.38, 71.08, 70.87, 70.75, 70.72, 70.78, 70.94, 71.18, 71.51, 71.92,
  72.43, 73.01, 73.67, 74.42, 75.23, 76.11, 77.06, 78.07, 79.14, 80.25,
  81.42, 82.62, 83.86, 85.13, 86.41, 87.72, 89.04, 90.36, 91.68, 92.99,
  94.29, 95.57, 96.82, 98.04, 99.22, 100.36, 101.45, 102.49, 103.46, 104.38]

/-- `float kneeRight[GAIT_SAMPLES]` from the source (100 samples). -/
def kneeRight : List ℚ := [
  81.02, 82.10, 83.21, 84.37, 85.54, 86.75, 87.97, 89.19, 90.43, 91.66,
  92.88, 94.09, 95.28, 96.44, 97.56, 98.65, 99.70, 100.69, 101.64, 102.52,
  103.34, 104.09, 104.77, 105.37, 105.90, 106.34, 106.70, 106.98, 107.17, 107.28,
  107.29, 107.22, 107.06, 106.82, 106.48, 106.07, 105.57, 104.99, 104.34, 103.62,
  102.82, 101.96, 101.04, 100.07, 99.04, 97.96, 96.85, 95.70, 94.52, 93.32,
  104.26, 103.53, 102.73, 101.86, 100.94, 99.95, 98.92, 97.84, 96.72, 95.57,
  94.39, 93.19, 91.97, 90.74, 89.50, 88.27, 87.05, 85.84, 84.66, 83.50,
  82.37, 81.29, 80.25, 79.25, 78.31, 77.43, 76.62, 75.87, 75.20, 74.60,
  74.08, 73.64, 73.28, 73.01, 72.82, 72.72, 72.71, 72.79, 72.95, 73.20,
  73.54, 73.96, 74.46, 75.04, 75.70, 76.43, 77.22, 78.09, 79.01, 79.99]

/-- `array[i]` for the gait tables: the source indexes with
`gaitCycleIndex`, which is kept in `[0, 99]`; out-of-range access is
undefined behaviour in C and arbitrarily modelled as `0`. -/
def lookup (a : List ℚ) (i : Int) : ℚ :=
  (a.get? i.toNat).getD 0

/-- `void returnToHomePosition()`: sets all four joints' `targetAngle`
and `currentAngle` to `SERVO_HOME_POS`. -/
def returnToHomePosition (d : SystemData) : SystemData :=
  { d with
    leftHip := { targetAngle := SERVO_HOME_POS, currentAngle := SERVO_HOME_POS }
    leftKnee := { targetAngle := SERVO_HOME_POS, currentAngle := SERVO_HOME_POS }
    rightHip := { targetAngle := SERVO_HOME_POS, currentAngle := SERVO_HOME_POS }
    rightKnee := { targetAngle := SERVO_HOME_POS, currentAngle := SERVO_HOME_POS } }

/-- The body of `void updateServos()` that runs once the
`SERVO_UPDATE_INTERVAL` has elapsed: copy each joint's `targetAngle` into
`currentAngle`, then `constrain` each `currentAngle` to
`[SERVO_MIN_ANGLE, SERVO_MAX_ANGLE]` (the subsequent `servo.write` calls are
hardware effects outside the state). -/
def updateServosTick (s : ExoState) : ExoState :=
  let d := s.currentData
  let d :=
    { d with
      leftHip := { d.leftHip with currentAngle := d.leftHip.targetAngle }
      leftKnee := { d.leftKnee with currentAngle := d.leftKnee.targetAngle }
      rightHip := { d.rightHip with currentAngle := d.rightHip.targetAngle }
      rightKnee := { d.rightKnee with currentAngle := d.rightKnee.targetAngle } }
  let d :=
    { d with
      leftHip := { d.leftHip with
        currentAngle := constrain d.leftHip.currentAngle SERVO_MIN_ANGLE SERVO_MAX_ANGLE }
      leftKnee := { d.leftKnee with
        currentAngle := constrain d.leftKnee.currentAngle SERVO_MIN_ANGLE SERVO_MAX_ANGLE }
      rightHip := { d.rightHip with
        currentAngle := constrain d.rightHip.currentAngle SERVO_MIN_ANGLE SERVO_MAX_ANGLE }
      rightKnee := { d.rightKnee with
        currentAngle := constrain d.rightKnee.currentAngle SERVO_MIN_ANGLE SERVO_MAX_ANGLE } }
  { s with currentData := d }

/-- `void handleServoError(String errorMessage)`: records the error and
enters `ERROR_STATE`.  Defined in the source but never called from any
code path (buzzer/LED/serial effects omitted). -/
def handleServoError (errorMessage : String) (s : ExoState) : ExoState :=
  { s with
    lastErrorMessage := errorMessage
    currentState := ERROR_STATE
    currentData := { s.currentData with errorCode := 1, errorMessage := errorMessage } }

/-- C float-to-int conversion: truncation toward zero. -/
def floatToInt (q : ℚ) : Int :=
  if q < 0 then -Rat.floor (-q) else Rat.floor q

/-- `int updateInterval = 50 / gaitSpeed; updateInterval = constrain(updateInterval, 20, 200);`
from `updateGaitSimulation`: the float quotient `50 / gaitSpeed` is
truncated to `int`, then constrained to `[20, 200]`. -/
def updateInterval (gaitSpeed : ℚ) : Int :=
  constrainInt (floatToInt (50 / gaitSpeed)) 20 200

/-- `currentData.gaitPhase = (gaitCycleIndex * 5) / 100; if (currentData.gaitPhase > 4) currentData.gaitPhase = 4;`
from `updateGaitSimulation` (C integer division; the index is non-negative). -/
def computeGaitPhase (i : Int) : Int :=
  let p := (i * 5) / 100
  if p > 4 then 4 else p

/-- The body of `void updateGaitSimulation()` that runs when
`currentState == RUNNING` and the speed-derived interval has elapsed:
record progress, fire the wrap edge-detector (`lastProgress > 95 &&
gaitCycleIndex < 5`), update `lastProgress`, load the four joint targets
from the gait arrays, compute the phase, copy the speed, and advance the
index modulo `GAIT_SAMPLES`. -/
def gaitTick (s : ExoState) : ExoState :=
  if s.currentState ≠ RUNNING then s
  else
    let d := { s.currentData with gaitProgress := s.gaitCycleIndex }
    let completedCycles :=
      if s.lastProgress > 95 ∧ s.gaitCycleIndex < 5 then s.completedCycles + 1
      else s.completedCycles
    let lastProgress := s.gaitCycleIndex
    let d :=
      { d with
        leftHip := { d.leftHip with targetAngle := lookup hipLeft s.gaitCycleIndex }
        leftKnee := { d.leftKnee with targetAngle := lookup kneeLeft s.gaitCycleIndex }
        rightHip := { d.rightHip with targetAngle := lookup hipRight s.gaitCycleIndex }
        rightKnee := { d.rightKnee with targetAngle := lookup kneeRight s.gaitCycleIndex } }
    let d := { d with gaitPhase := computeGaitPhase s.gaitCycleIndex, gaitSpeed := s.gaitSpeed }
    let nextIndex := s.gaitCycleIndex + 1
    let nextIndex := if nextIndex ≥ GAIT_SAMPLES then 0 else nextIndex
    { s with
      currentData := d
      completedCycles := completedCycles
      lastProgress := lastProgress
      gaitCycleIndex := nextIndex }

/-- `void updateDiagnostics()`: recompute the load estimate
(`gaitSpeed * 25`, plus 30 when running else 10, constrained to `[0,100]`). -/
def updateDiagnostics (s : ExoState) : ExoState :=
  let load := s.gaitSpeed * 25
  let load := if s.currentState = RUNNING then load + 30 else load + 10
  let load := constrain load 0 100
  { s with currentData := { s.currentData with systemLoad := load } }

/-- The fields of a successfully deserialized command document that
`handleWebSocketMessage` reads: `doc["command"]`, `doc["value"]`,
`doc["joint"]`.  A document whose `command` key is absent deserializes to a
string that matches no recognized command (ArduinoJson stringifies the null
variant), so it is covered by letting `command` range over all strings;
`value`/`joint` are `Option`s reflecting the `doc.containsKey` checks. -/
structure CommandDoc where
  command : String
  value : Option ℚ
  joint : Option String
deriving DecidableEq, Repr

/-- An inbound complete WebSocket text frame, as seen after
`deserializeJson`: either a parse error or a parsed document. -/
inductive InMessage where
  | unparseable
  | parsed (doc : CommandDoc)
deriving DecidableEq, Repr

/-- The command-dispatch chain of `handleWebSocketMessage` (everything
between the `deserializeJson` success and the final `sendDataToClients()`).
Serial prints and buzzer tones are effects outside the state. -/
def handleCommand (doc : CommandDoc) (s : ExoState) : ExoState :=
  if doc.command = "start" then
    if s.currentState ≠ ERROR_STATE then { s with currentState := RUNNING } else s
  else if doc.command = "stop" then
    { s with
      currentState := STOPPED
      gaitCycleIndex := 0
      lastProgress := -1
      currentData := returnToHomePosition s.currentData }
  else if doc.command = "pause" then
    if s.currentState = RUNNING then { s with currentState := PAUSED } else s
  else if doc.command = "setSpeed" then
    match doc.value with
    | some v =>
      let g := v
      let g := constrain g 0.5 2.0
      { s with gaitSpeed := g }
    | none => s
  else if doc.command = "setAngle" then
    match doc.joint, doc.value with
    | some joint, some v =>
      let angle := constrain v SERVO_MIN_ANGLE SERVO_MAX_ANGLE
      if joint = "leftHip" then
        { s with currentData := { s.currentData with
            leftHip := { targetAngle := angle, currentAngle := angle } } }
      else if joint = "leftKnee" then
        { s with currentData := { s.currentData with
            leftKnee := { targetAngle := angle, currentAngle := angle } } }
      else if joint = "rightHip" then
        { s with currentData := { s.currentData with
            rightHip := { targetAngle := angle, currentAngle := angle } } }
      else if joint = "rightKnee" then
        { s with currentData := { s.currentData with
            rightKnee := { targetAngle := angle, currentAngle := angle } } }
      else s
    | _, _ => s
  else if doc.command = "getStatus" ∨ doc.command = "getDiagnostics" then
    updateDiagnostics s
  else s

/-- `void handleWebSocketMessage(...)` on a complete text frame: a
`deserializeJson` error returns early (no state change, no reply); any
successfully parsed document is dispatched and then unconditionally
answered with a `sendDataToClients()` broadcast.  The boolean records
whether that broadcast was emitted. -/
def handleWebSocketMessage : InMessage → ExoState → ExoState × Bool
  | InMessage.unparseable, s => (s, false)
  | InMessage.parsed doc, s => (handleCommand doc s, true)

/-- The state after `setup()` / `initializeServos()`: all joints at
`SERVO_HOME_POS` (set directly and again via `returnToHomePosition`),
phase/progress/load/errorCode zeroed, error message empty, mode `STOPPED`,
cursor 0, speed 1.0, no completed cycles, `lastProgress = -1`. -/
def initState : ExoState :=
  { currentState := STOPPED
    lastErrorMessage := ""
    currentData := returnToHomePosition
      { leftHip := { currentAngle := SERVO_HOME_POS, targetAngle := SERVO_HOME_POS }
        leftKnee := { currentAngle := SERVO_HOME_POS, targetAngle := SERVO_HOME_POS }
        rightHip := { currentAngle := SERVO_HOME_POS, targetAngle := SERVO_HOME_POS }
        rightKnee := { currentAngle := SERVO_HOME_POS, targetAngle := SERVO_HOME_POS }
        gaitPhase := 0
        gaitProgress := 0
        gaitSpeed := 1
        systemLoad := 0
        errorCode := 0
        errorMessage := "" }
    gaitCycleIndex := 0
    gaitSpeed := 1
    completedCycles := 0
    lastProgress := -1 }

/-- The `switch (currentState)` at the top of `sendDataToClients()`:
the descriptive state string of the WebSocket telemetry channel. -/
def telemetryStateString : SystemState → String
  | RUNNING => "running"
  | PAUSED => "paused"
  | ERROR_STATE => "error"
  | _ => "stopped"

/-- The `"state"` fragment of the telemetry JSON:
`json += "\"state\":\"" + stateStr + "\","` in `sendDataToClients()`. -/
def sendDataStateFragment (st : SystemState) : String :=
  "\"state\":\"" ++ telemetryStateString st ++ "\","

/-- The `"state"` fragment of the one-shot `/api/status` JSON:
`json += "\"state\":" + String(currentState) + ","` in `setupWebServer()`
(Arduino `String(int)` renders the raw enumerator value in decimal,
unquoted). -/
def apiStatusStateFragment (st : SystemState) : String :=
  "\"state\":" ++ toString st.enumValue ++ ","

/-- One step of the implemented system: a sequencer tick, an actuation
tick, a diagnostics refresh, or the handling of one inbound WebSocket
message.  `sendDataToClients`, `updateStatusLED` and `ws.cleanupClients()`
read but never write the modelled state, so they contribute no step. -/
inductive Step : ExoState → ExoState → Prop where
  | gait (s : ExoState) : Step s (gaitTick s)
  | servos (s : ExoState) : Step s (updateServosTick s)
  | diagnostics (s : ExoState) : Step s (updateDiagnostics s)
  | message (m : InMessage) (s : ExoState) : Step s (handleWebSocketMessage m s).1

/-- States reachable from the startup state under the implemented step
relation. -/
def Reachable (s : ExoState) : Prop :=
  Relation.ReflTransGen Step initState s

/-- All four joints' `currentAngle` lie within the safe range. -/
def anglesInRange (s : ExoState) : Prop :=
  (SERVO_MIN_ANGLE ≤ s.currentData.leftHip.currentAngle ∧
    s.currentData.leftHip.currentAngle ≤ SERVO_MAX_ANGLE) ∧
  (SERVO_MIN_ANGLE ≤ s.currentData.leftKnee.currentAngle ∧
    s.currentData.leftKnee.currentAngle ≤ SERVO_MAX_ANGLE) ∧
  (SERVO_MIN_ANGLE ≤ s.currentData.rightHip.currentAngle ∧
    s.currentData.rightHip.currentAngle ≤ SERVO_MAX_ANGLE) ∧
  (SERVO_MIN_ANGLE ≤ s.currentData.rightKnee.currentAngle ∧
    s.currentData.rightKnee.currentAngle ≤ SERVO_MAX_ANGLE)

/-- The tick-cadence formula exactly as the specification words it
(`interval = clamp(baseInterval / speedMultiplier, minInterval, maxInterval)`,
base 50, bounds 20–200), for comparison with the implemented
`updateInterval`.  Modelled from the spec, not from the source. -/
def specTickInterval (speedMultiplier : ℚ) : ℚ :=
  constrain (50 / speedMultiplier) 20 200

/-- The state right after a `start` command arrives at the freshly booted
controller: `RUNNING`, cursor 0, `lastProgress = -1`, speed 1.0. -/
def runningFromStart : ExoState :=
  (handleWebSocketMessage (InMessage.parsed ⟨"start", none, none⟩) initState).1

/-- A faulted state: what the (never-invoked) `handleServoError` would
produce from the startup state. -/
def faultedState : ExoState :=
  handleServoError "Servo fault" initState

theorem constrain_safe_lower (v : ℚ) :
    SERVO_MIN_ANGLE ≤ constrain v SERVO_MIN_ANGLE SERVO_MAX_ANGLE := by
  unfold constrain SERVO_MIN_ANGLE SERVO_MAX_ANGLE
  split_ifs <;> linarith

theorem constrain_safe_upper (v : ℚ) :
    constrain v SERVO_MIN_ANGLE SERVO_MAX_ANGLE ≤ SERVO_MAX_ANGLE := by
  unfold constrain SERVO_MIN_ANGLE SERVO_MAX_ANGLE
  split_ifs <;> linarith

theorem min_le_home : SERVO_MIN_ANGLE ≤ SERVO_HOME_POS := by
  norm_num [SERVO_MIN_ANGLE, SERVO_HOME_POS]

theorem home_le_max : SERVO_HOME_POS ≤ SERVO_MAX_ANGLE := by
  norm_num [SERVO_HOME_POS, SERVO_MAX_ANGLE]

theorem anglesInRange_handleCommand (doc : CommandDoc) (s : ExoState)
    (h : anglesInRange s) : anglesInRange (handleCommand doc s) := by
  obtain ⟨hLH, hLK, hRH, hRK⟩ := h
  unfold handleCommand
  split_ifs with h1 h2 h3 h4 h5 h6 h7 h8
  · exact ⟨hLH, hLK, hRH, hRK⟩
  · exact ⟨hLH, hLK, hRH, hRK⟩
  · exact ⟨⟨min_le_home, home_le_max⟩, ⟨min_le_home, home_le_max⟩,
      ⟨min_le_home, home_le_max⟩, ⟨min_le_home, home_le_max⟩⟩
  · exact ⟨hLH, hLK, hRH, hRK⟩
  · exact ⟨hLH, hLK, hRH, hRK⟩
  · rcases doc.value with _ | v
    · exact ⟨hLH, hLK, hRH, hRK⟩
    · exact ⟨hLH, hLK, hRH, hRK⟩
  · rcases doc.joint with _ | j
    · rcases doc.value with _ | v
      · exact ⟨hLH, hLK, hRH, hRK⟩
      · exact ⟨hLH, hLK, hRH, hRK⟩
    · rcases doc.value with _ | v
      · exact ⟨hLH, hLK, hRH, hRK⟩
      · dsimp only
        split_ifs
        · exact ⟨⟨constrain_safe_lower v, constrain_safe_upper v⟩, hLK, hRH, hRK⟩
        · exact ⟨hLH, ⟨constrain_safe_lower v, constrain_safe_upper v⟩, hRH, hRK⟩
        · exact ⟨hLH, hLK, ⟨constrain_safe_lower v, constrain_safe_upper v⟩, hRK⟩
        · exact ⟨hLH, hLK, hRH, ⟨constrain_safe_lower v, constrain_safe_upper v⟩⟩
        · exact ⟨hLH, hLK, hRH, hRK⟩
  · exact ⟨hLH, hLK, hRH, hRK⟩
  · exact ⟨hLH, hLK, hRH, hRK⟩

theorem handleCommand_not_error (doc : CommandDoc) (s : ExoState)
    (hs : s.currentState ≠ ERROR_STATE) :
    (handleCommand doc s).currentState ≠ ERROR_STATE := by
  unfold handleCommand
  split_ifs
  all_goals (try (rcases doc.joint with _ | j))
  all_goals (try (rcases doc.value with _ | v))
  all_goals (try dsimp only)
  all_goals (try split_ifs)
  all_goals (first | exact hs | decide)

theorem anglesInRange_step {s t : ExoState} (h : Step s t)
    (hs : anglesInRange s) : anglesInRange t := by
  cases h with
  | gait s1 =>
    obtain ⟨hLH, hLK, hRH, hRK⟩ := hs
    unfold gaitTick
    split
    · exact ⟨hLH, hLK, hRH, hRK⟩
    · exact ⟨hLH, hLK, hRH, hRK⟩
  | servos s1 =>
    exact ⟨⟨constrain_safe_lower _, constrain_safe_upper _⟩,
      ⟨constrain_safe_lower _, constrain_safe_upper _⟩,
      ⟨constrain_safe_lower _, constrain_safe_upper _⟩,
      ⟨constrain_safe_lower _, constrain_safe_upper _⟩⟩
  | diagnostics s1 => exact hs
  | message m s1 =>
    cases m with
    | unparseable => exact hs
    | parsed doc => exact anglesInRange_handleCommand doc s hs

theorem step_not_error {s t : ExoState} (h : Step s t)
    (hs : s.currentState ≠ ERROR_STATE) : t.currentState ≠ ERROR_STATE := by
  cases h with
  | gait s1 =>
    unfold gaitTick
    split
    · exact hs
    · exact hs
  | servos s1 => exact hs
  | diagnostics s1 => exact hs
  | message m s1 =>
    cases m with
    | unparseable => exact hs
    | parsed doc => exact handleCommand_not_error doc s hs

/-- C1: for every joint and after every operation reachable from startup
(WebSocket commands with arbitrary values, sequencer ticks, actuation
ticks, diagnostics refreshes, stop/reset), every joint's `currentAngle`
satisfies `SERVO_MIN_ANGLE ≤ currentAngle ≤ SERVO_MAX_ANGLE`: angle
commands are clamped regardless of the input value. -/
theorem C1_currentAngle_always_in_safe_range (s : ExoState)
    (h : Reachable s) : anglesInRange s := by
  induction h with
  | refl =>
    exact ⟨⟨min_le_home, home_le_max⟩, ⟨min_le_home, home_le_max⟩,
      ⟨min_le_home, home_le_max⟩, ⟨min_le_home, home_le_max⟩⟩
  | tail _ hstep ih => exact anglesInRange_step hstep ih

/-- C1 witness: a `setAngle` command with out-of-range value 250 on the
startup state still leaves every `currentAngle` inside `[0, 180]`. -/
theorem C1_witness :
    anglesInRange
      (handleWebSocketMessage
        (InMessage.parsed ⟨"setAngle", some 250, some "leftHip"⟩) initState).1 :=
  C1_currentAngle_always_in_safe_range _
    (Relation.ReflTransGen.single
      (Step.message (InMessage.parsed ⟨"setAngle", some 250, some "leftHip"⟩) initState))

/-- C9: under the implemented step relation (sequencer tick, actuation
tick, diagnostics, and all WebSocket command handling), `ERROR_STATE` is
unreachable from the initial `STOPPED` state: the only function that
enters it, `handleServoError`, is invoked from no code path, so no step
produces it. -/
theorem C9_fault_state_unreachable (s : ExoState) (h : Reachable s) :
    s.currentState ≠ ERROR_STATE := by
  induction h with
  | refl => decide
  | tail _ hstep ih => exact step_not_error hstep ih

/-- C9 witness: the state after one actuation tick from startup is not
`ERROR_STATE`. -/
theorem C9_witness : (updateServosTick initState).currentState ≠ ERROR_STATE :=
  C9_fault_state_unreachable _
    (Relation.ReflTransGen.single (Step.servos initState))

theorem handleCommand_stays_fault (doc : CommandDoc) (s : ExoState)
    (hF : s.currentState = ERROR_STATE) (hstop : doc.command ≠ "stop") :
    (handleCommand doc s).currentState = ERROR_STATE := by
  unfold handleCommand
  split_ifs
  all_goals (try (rcases doc.joint with _ | j))
  all_goals (try (rcases doc.value with _ | v))
  all_goals (try dsimp only)
  all_goals (try split_ifs)
  all_goals (first | exact hF | simp_all)

theorem handleCommand_start_pause_fault_noop (doc : CommandDoc) (s : ExoState)
    (hF : s.currentState = ERROR_STATE)
    (hc : doc.command = "start" ∨ doc.command = "pause") :
    handleCommand doc s = s := by
  unfold handleCommand
  rcases hc with hc | hc <;> rw [hc] <;> simp [hF]

/-- C2 counterexample: the claim that every non-`stop` command is a no-op
in `Fault` mode fails at `setSpeed`: in the faulted state (speed 1.0), a
`setSpeed 1.5` message changes `gaitSpeed` to 1.5, so the shared state is
not left unchanged. -/
theorem C2_counterexample :
    faultedState.currentState = ERROR_STATE ∧
    (handleWebSocketMessage (InMessage.parsed ⟨"setSpeed", some (3/2), none⟩)
        faultedState).1.gaitSpeed = 3/2 ∧
    faultedState.gaitSpeed = 1 ∧
    (handleWebSocketMessage (InMessage.parsed ⟨"setSpeed", some (3/2), none⟩)
        faultedState).1 ≠ faultedState := by
  refine ⟨rfl, ?_, rfl, ?_⟩
  · show constrain (3/2) 0.5 2.0 = 3/2
    norm_num [constrain]
  · intro hEq
    have h2 := congrArg ExoState.gaitSpeed hEq
    have h3 : constrain (3/2) 0.5 2.0 = (1 : ℚ) := h2
    norm_num [constrain] at h3

/-- C2 (amended): while in `ERROR_STATE`, `start` and `pause` leave the
entire shared state unchanged, and no command other than `stop` leaves
`ERROR_STATE`; however `setSpeed`, `setAngle` and `getStatus` are not
gated and still mutate the speed, the addressed joint's angles, and the
diagnostics load respectively. -/
theorem C2_fault_stickiness_amended (s : ExoState) (doc : CommandDoc)
    (hF : s.currentState = ERROR_STATE) :
    ((doc.command = "start" ∨ doc.command = "pause") →
      (handleWebSocketMessage (InMessage.parsed doc) s).1 = s) ∧
    (doc.command ≠ "stop" →
      (handleWebSocketMessage (InMessage.parsed doc) s).1.currentState = ERROR_STATE) := by
  constructor
  · intro hc
    exact handleCommand_start_pause_fault_noop doc s hF hc
  · intro hstop
    exact handleCommand_stays_fault doc s hF hstop

/-- C2 witness: in the faulted state, `start` changes nothing and a
non-`stop` command (`setAngle`) leaves the mode at `ERROR_STATE`. -/
theorem C2_witness :
    (handleWebSocketMessage (InMessage.parsed ⟨"start", none, none⟩)
        faultedState).1 = faultedState ∧
    (handleWebSocketMessage (InMessage.parsed ⟨"setAngle", some 10, some "leftHip"⟩)
        faultedState).1.currentState = ERROR_STATE :=
  ⟨(C2_fault_stickiness_amended faultedState ⟨"start", none, none⟩ rfl).1 (Or.inl rfl),
    (C2_fault_stickiness_amended faultedState ⟨"setAngle", some 10, some "leftHip"⟩ rfl).2
      (by decide)⟩

set_option maxRecDepth 100000 in
/-- C3 counterexample: after 50 sequencer ticks of a started run,
`stop` leaves the reported `gaitProgress` at 49, not 0; and from a
faulted state, `stop` leaves `errorCode` at 1, not cleared. -/
theorem C3_counterexample :
    ¬((handleWebSocketMessage (InMessage.parsed ⟨"stop", none, none⟩)
        (gaitTick^[50] runningFromStart)).1.currentData.gaitProgress = 0) ∧
    ¬((handleWebSocketMessage (InMessage.parsed ⟨"stop", none, none⟩)
        faultedState).1.currentData.errorCode = 0) := by
  constructor <;> decide

/-- C3 (amended): a `stop` command from any state sets the mode to
`STOPPED`, resets the cursor to 0 (and the edge-detector memory to -1),
and drives all four joints' target and current angles to the home posture
(90°); it does not reset the reported `gaitProgress` and does not clear
the fault info (`errorCode`, `errorMessage`), which keep their previous
values. -/
theorem C3_stop_behaviour_amended (s : ExoState) :
    ((handleWebSocketMessage (InMessage.parsed ⟨"stop", none, none⟩) s).1.currentState
        = STOPPED) ∧
    ((handleWebSocketMessage (InMessage.parsed ⟨"stop", none, none⟩) s).1.gaitCycleIndex
        = 0) ∧
    ((handleWebSocketMessage (InMessage.parsed ⟨"stop", none, none⟩) s).1.lastProgress
        = -1) ∧
    ((handleWebSocketMessage (InMessage.parsed ⟨"stop", none, none⟩) s).1.currentData.leftHip
        = ⟨SERVO_HOME_POS, SERVO_HOME_POS⟩) ∧
    ((handleWebSocketMessage (InMessage.parsed ⟨"stop", none, none⟩) s).1.currentData.leftKnee
        = ⟨SERVO_HOME_POS, SERVO_HOME_POS⟩) ∧
    ((handleWebSocketMessage (InMessage.parsed ⟨"stop", none, none⟩) s).1.currentData.rightHip
        = ⟨SERVO_HOME_POS, SERVO_HOME_POS⟩) ∧
    ((handleWebSocketMessage (InMessage.parsed ⟨"stop", none, none⟩) s).1.currentData.rightKnee
        = ⟨SERVO_HOME_POS, SERVO_HOME_POS⟩) ∧
    ((handleWebSocketMessage (InMessage.parsed ⟨"stop", none, none⟩) s).1.currentData.gaitProgress
        = s.currentData.gaitProgress) ∧
    ((handleWebSocketMessage (InMessage.parsed ⟨"stop", none, none⟩) s).1.currentData.errorCode
        = s.currentData.errorCode) ∧
    ((handleWebSocketMessage (InMessage.parsed ⟨"stop", none, none⟩) s).1.currentData.errorMessage
        = s.currentData.errorMessage) := by
  refine ⟨?_, ?_, ?_, ?_, ?_, ?_, ?_, ?_, ?_, ?_⟩ <;>
    simp [handleWebSocketMessage, handleCommand, returnToHomePosition]

set_option maxRecDepth 100000 in
/-- C4 counterexample: from the started state (cursor 0, running), after
exactly 100 sequencer ticks the cursor has returned to 0, but
`completedCycles` is still 0 — it has not increased by 1 as claimed. -/
theorem C4_counterexample :
    runningFromStart.currentState = RUNNING ∧
    runningFromStart.gaitCycleIndex = 0 ∧
    runningFromStart.completedCycles = 0 ∧
    (gaitTick^[100] runningFromStart).gaitCycleIndex = 0 ∧
    ¬((gaitTick^[100] runningFromStart).completedCycles = 1) := by
  refine ⟨rfl, rfl, rfl, ?_, ?_⟩ <;> decide

set_option maxRecDepth 100000 in
/-- C4 (amended): starting from cursor 0 in `Running` mode, after exactly
100 sequencer ticks the cursor has returned to 0 with `completedCycles`
unchanged; the wrap edge-detector (`previous > 95 && new < 5`) fires on
the following (101st) tick, which is when `completedCycles` increases by
exactly 1. -/
theorem C4_cycle_wrap_amended :
    (gaitTick^[100] runningFromStart).gaitCycleIndex = 0 ∧
    (gaitTick^[100] runningFromStart).completedCycles = 0 ∧
    (gaitTick^[101] runningFromStart).completedCycles = 1 := by
  refine ⟨?_, ?_, ?_⟩ <;> decide

set_option maxRecDepth 100000 in
/-- C5 counterexample: after `start` and exactly 50 sequencer ticks at
speed 1.0, the reported `gaitProgress` is 49, not 50 (progress is recorded
from the index before it is incremented). -/
theorem C5_counterexample :
    ¬((gaitTick^[50] runningFromStart).currentData.gaitProgress = 50) := by
  decide

set_option maxRecDepth 100000 in
/-- C5 (amended): after `start` and exactly 50 sequencer ticks at speed
1.0, the reported `gaitProgress` equals 49 and `gaitPhase` equals 2. -/
theorem C5_progress_phase_amended :
    (gaitTick^[50] runningFromStart).currentData.gaitProgress = 49 ∧
    (gaitTick^[50] runningFromStart).currentData.gaitPhase = 2 := by
  constructor <;> decide

/-- C6 counterexample: a well-formed JSON message with an unknown command
name causes no state change, but it does produce a client-visible
response — the unconditional `sendDataToClients()` broadcast — refuting
"no client-visible response or acknowledgment of any kind". -/
theorem C6_counterexample :
    (handleWebSocketMessage (InMessage.parsed ⟨"selfDestruct", none, none⟩) initState).1
      = initState ∧
    (handleWebSocketMessage (InMessage.parsed ⟨"selfDestruct", none, none⟩) initState).2
      = true := ⟨rfl, rfl⟩

/-- C6 (amended): unparseable JSON is dropped silently (no state change,
no response); a parseable message with an unknown command name, a
`setSpeed` without `value`, or a `setAngle` missing `joint` or `value`
causes no state change but does trigger a telemetry broadcast to all
clients. -/
theorem C6_malformed_handling_amended (s : ExoState) (doc : CommandDoc)
    (h : ¬ doc.command ∈ (["start", "stop", "pause", "setSpeed", "setAngle",
      "getStatus", "getDiagnostics"] : List String)) :
    handleWebSocketMessage InMessage.unparseable s = (s, false) ∧
    handleWebSocketMessage (InMessage.parsed doc) s = (s, true) ∧
    (∀ d2 : CommandDoc, d2.command = "setSpeed" → d2.value = none →
      handleWebSocketMessage (InMessage.parsed d2) s = (s, true)) ∧
    (∀ d3 : CommandDoc, d3.command = "setAngle" →
      (d3.joint = none ∨ d3.value = none) →
      handleWebSocketMessage (InMessage.parsed d3) s = (s, true)) := by
  simp only [List.mem_cons, List.not_mem_nil, or_false] at h
  push_neg at h
  refine ⟨rfl, ?_, ?_, ?_⟩
  · show (handleCommand doc s, true) = (s, true)
    unfold handleCommand
    split_ifs <;> simp_all
  · intro d2 h1 h2
    show (handleCommand d2 s, true) = (s, true)
    unfold handleCommand
    rw [h1, h2]
    simp
  · intro d3 h1 h2
    show (handleCommand d3 s, true) = (s, true)
    unfold handleCommand
    rw [h1]
    rcases h2 with h2 | h2 <;> rw [h2]
    · simp
    · rcases d3.joint with _ | j <;> simp

/-- C6 witness: an unknown command on the startup state is a state no-op
answered by a broadcast, and an unparseable frame is dropped without one. -/
theorem C6_witness :
    handleWebSocketMessage InMessage.unparseable initState = (initState, false) ∧
    handleWebSocketMessage (InMessage.parsed ⟨"frobnicate", none, none⟩) initState
      = (initState, true) :=
  ⟨(C6_malformed_handling_amended initState ⟨"frobnicate", none, none⟩ (by decide)).1,
    (C6_malformed_handling_amended initState ⟨"frobnicate", none, none⟩ (by decide)).2.1⟩

/-- C7 counterexample: at `speedMultiplier = 1.5` the implemented tick
interval is the truncated value 33, while the specification's formula
`clamp(50 / speedMultiplier, 20, 200)` yields 100/3 = 33.33…, so the two
are not equal. -/
theorem C7_counterexample :
    ((updateInterval (3/2) : ℚ) = 33) ∧
    specTickInterval (3/2) = 100/3 ∧ ((33 : ℚ) ≠ 100/3) := by
  refine ⟨?_, ?_, by norm_num⟩
  · have hfl : Rat.floor ((50 : ℚ) / (3/2)) = 33 := by
      show Int.floor ((50 : ℚ) / (3/2)) = 33
      rw [Int.floor_eq_iff]
      norm_num
    have h33 : updateInterval (3/2) = 33 := by
      unfold updateInterval floatToInt
      rw [if_neg (by norm_num), hfl]
      norm_num [constrainInt]
    exact_mod_cast h33
  · norm_num [specTickInterval, constrain]

/-- C7 (amended): for every `speedMultiplier ∈ [0.5, 2.0]` the tick
interval equals `⌊50 / speedMultiplier⌋` — the clamp to `[20, 200]` is
inactive because the truncated quotient already lies in `[25, 100]` — and
in particular the interval at speed 2.0 (25) is half the interval at
speed 1.0 (50). -/
theorem C7_interval_amended :
    (∀ speed : ℚ, 1/2 ≤ speed → speed ≤ 2 →
      updateInterval speed = Rat.floor (50 / speed) ∧
      25 ≤ updateInterval speed ∧ updateInterval speed ≤ 100) ∧
    updateInterval 1 = 50 ∧ updateInterval 2 = 25 := by
  have key : ∀ speed : ℚ, 1/2 ≤ speed → speed ≤ 2 →
      updateInterval speed = Rat.floor (50 / speed) ∧
      25 ≤ updateInterval speed ∧ updateInterval speed ≤ 100 := by
    intro speed h1 h2
    have hpos : 0 < speed := lt_of_lt_of_le (by norm_num) h1
    have hq1 : (25 : ℚ) ≤ 50 / speed := by
      rw [le_div_iff₀ hpos]; nlinarith
    have hq2 : (50 : ℚ) / speed ≤ 100 := by
      rw [div_le_iff₀ hpos]; nlinarith
    have hfl : (25 : ℤ) ≤ Rat.floor (50 / speed) := by
      show (25 : ℤ) ≤ Int.floor ((50 : ℚ) / speed)
      exact Int.le_floor.mpr (by exact_mod_cast hq1)
    have hfu : Rat.floor (50 / speed) ≤ 100 := by
      show Int.floor ((50 : ℚ) / speed) ≤ 100
      have h100 := Int.floor_le_floor (α := ℚ) hq2
      simpa using h100
    have heq : updateInterval speed = Rat.floor (50 / speed) := by
      unfold updateInterval floatToInt
      rw [if_neg (by push_neg; linarith)]
      unfold constrainInt
      split_ifs with ha hb
      · omega
      · omega
      · rfl
    exact ⟨heq, by rw [heq]; exact hfl, by rw [heq]; exact hfu⟩
  refine ⟨key, ?_, ?_⟩
  · have h1 := (key 1 (by norm_num) (by norm_num)).1
    rw [h1]
    show Int.floor ((50 : ℚ) / 1) = 50
    norm_num
  · have h2 := (key 2 (by norm_num) (by norm_num)).1
    rw [h2]
    show Int.floor ((50 : ℚ) / 2) = 25
    norm_num

/-- C7 witness: the amended interval relation instantiated at speed 1.5. -/
theorem C7_witness :
    updateInterval (3/2) = Rat.floor (50 / (3/2 : ℚ)) ∧
    25 ≤ updateInterval (3/2) ∧ updateInterval (3/2) ≤ 100 :=
  C7_interval_amended.1 (3/2) (by norm_num) (by norm_num)

set_option maxRecDepth 10000 in
/-- C8: for every cursor index in `[0, 99]`, the computed gait phase
equals `floor(index * 5 / 100)`, lies in `[0, 4]`, is non-decreasing as
the index increases within one cycle, and is 0 at index 0 (the value the
index wraps to). -/
theorem C8_phase_floor_monotone : ∀ i : ℕ, i < 100 →
    computeGaitPhase (i : ℤ) = ((i * 5) / 100 : ℕ) ∧
    0 ≤ computeGaitPhase (i : ℤ) ∧ computeGaitPhase (i : ℤ) ≤ 4 ∧
    (∀ j : ℕ, j < 100 → i ≤ j → computeGaitPhase (i : ℤ) ≤ computeGaitPhase (j : ℤ)) ∧
    computeGaitPhase 0 = 0 := by decide

/-- C8 witness: the phase relation instantiated at index 97. -/
theorem C8_witness :
    computeGaitPhase (97 : ℤ) = ((97 * 5) / 100 : ℕ) ∧
    0 ≤ computeGaitPhase (97 : ℤ) ∧ computeGaitPhase (97 : ℤ) ≤ 4 ∧
    (∀ j : ℕ, j < 100 → 97 ≤ j → computeGaitPhase (97 : ℤ) ≤ computeGaitPhase (j : ℤ)) ∧
    computeGaitPhase 0 = 0 :=
  C8_phase_floor_monotone 97 (by norm_num)

/-- C10: the one-shot `/api/status` endpoint serializes the system state
as the raw (unquoted) integer enumerator value — 0 for `STOPPED`, 1 for
`RUNNING`, 2 for `PAUSED`, 3 for `ERROR_STATE` — while the WebSocket
telemetry channel serializes it as one of the quoted descriptive strings
"stopped" / "running" / "paused" / "error"; the two fragments differ for
every state. -/
theorem C10_state_serialization_divergence :
    apiStatusStateFragment STOPPED = "\"state\":0," ∧
    apiStatusStateFragment RUNNING = "\"state\":1," ∧
    apiStatusStateFragment PAUSED = "\"state\":2," ∧
    apiStatusStateFragment ERROR_STATE = "\"state\":3," ∧
    sendDataStateFragment STOPPED = "\"state\":\"stopped\"," ∧
    sendDataStateFragment RUNNING = "\"state\":\"running\"," ∧
    sendDataStateFragment PAUSED = "\"state\":\"paused\"," ∧
    sendDataStateFragment ERROR_STATE = "\"state\":\"error\"," ∧
    (∀ st : SystemState, apiStatusStateFragment st ≠ sendDataStateFragment st) := by
  refine ⟨rfl, rfl, rfl, rfl, rfl, rfl, rfl, rfl, ?_⟩
  intro st
  cases st <;> decide

end Exo
